import Mathlib

/-!
Verification of the Bolt protocol client core of the SGNL-ai/neo4j-go-driver
repository.  The development shallowly embeds the parts of the driver that the
checked properties are about:

* the value hydration layer (PackStream structures to domain entities),
* path reconstruction from node / relationship / index tables,
* SUCCESS metadata parsing,
* re-authentication version gating (`checkReAuth`),
* auth-token construction (`BasicAuth`),
* the driver configuration builder.

The repository ships the hydrator's, `buildPath`'s and `BasicAuth`'s test
suites but not their implementations; those operations are therefore modelled
from the specification (each such definition's doc comment starts with
"Modelled from the spec:").  `checkReAuth` and the configuration builder are
embedded directly from their Go sources.
-/

namespace NeoSpec

/-- Protocol error as in `db.ProtocolError`: a message-type context string and
an error text. -/
structure ProtocolError where
  MessageType : String
  Err : String
deriving Repr, DecidableEq

/-- Decoded PackStream value, the input of the hydrator.  Modelled from the
spec: the PackStream primitives (§3) restricted to the fragment the checked
claims exercise; IEEE-754 floats and raw byte arrays are outside the modelled
fragment. -/
inductive PVal where
  | null
  | bool (b : Bool)
  | int (i : Int)
  | str (s : String)
  | list (xs : List PVal)
  | map (entries : List (String × PVal))
  | struct (tag : Nat) (fields : List PVal)
deriving Repr

/-- Hydrator state, as in the Go `hydrator` struct: whether the `utc` patch
was acknowledged and the negotiated Bolt major version. -/
structure Hydrator where
  useUtc : Bool := false
  boltMajor : Nat := 0
deriving Repr, DecidableEq

/-- A zoned date-time instant: seconds since the Unix epoch (UTC), the
sub-second nanoseconds, the zone offset from UTC in seconds, and the zone
designation.  This models Go's `time.Time` value carrying a location. -/
structure HDateTime where
  utcSeconds : Int
  nanos : Int
  offsetSeconds : Int
  zone : String
deriving Repr, DecidableEq

/-- Seconds of the instant rendered in its own zone (local wall-clock
seconds since the epoch). -/
def HDateTime.localSeconds (d : HDateTime) : Int :=
  d.utcSeconds + d.offsetSeconds

/-- Whole days between the epoch and the instant's local wall clock. -/
def HDateTime.epochDays (d : HDateTime) : Int :=
  Int.fdiv d.localSeconds 86400

/-- Second of the local day, in `[0, 86400)`. -/
def HDateTime.secondOfDay (d : HDateTime) : Int :=
  Int.emod d.localSeconds 86400

/-- Civil date (year, month, day) from a count of days since 1970-01-01,
the standard Gregorian conversion used to model Go's `time.Time.Date`. -/
def civilFromDays (z0 : Int) : Int × Int × Int :=
  let z := z0 + 719468
  let era := Int.fdiv z 146097
  let doe := z - era * 146097
  let yoe := Int.fdiv (doe - Int.fdiv doe 1460 + Int.fdiv doe 36524 - Int.fdiv doe 146096) 365
  let y := yoe + era * 400
  let doy := doe - (365 * yoe + Int.fdiv yoe 4 - Int.fdiv yoe 100)
  let mp := Int.fdiv (5 * doy + 2) 153
  let d := doy - Int.fdiv (153 * mp + 2) 5 + 1
  let m := mp + (if mp < 10 then 3 else -9)
  (if m ≤ 2 then y + 1 else y, m, d)

/-- Year of the instant in its own zone, as `time.Time.Year`. -/
def HDateTime.year (d : HDateTime) : Int := (civilFromDays d.epochDays).1

/-- Month (1–12) of the instant in its own zone, as `time.Time.Month`. -/
def HDateTime.month (d : HDateTime) : Int := (civilFromDays d.epochDays).2.1

/-- Day of month of the instant in its own zone, as `time.Time.Day`. -/
def HDateTime.day (d : HDateTime) : Int := (civilFromDays d.epochDays).2.2

/-- Hour of the instant in its own zone, as `time.Time.Hour`. -/
def HDateTime.hour (d : HDateTime) : Int := Int.fdiv d.secondOfDay 3600

/-- Minute of the instant in its own zone, as `time.Time.Minute`. -/
def HDateTime.minute (d : HDateTime) : Int := Int.fdiv (Int.emod d.secondOfDay 3600) 60

/-- Second of the instant in its own zone, as `time.Time.Second`. -/
def HDateTime.second (d : HDateTime) : Int := Int.emod d.secondOfDay 60

/-- Nanosecond of the instant, as `time.Time.Nanosecond`. -/
def HDateTime.nanosecond (d : HDateTime) : Int := d.nanos

/-- Hydrated non-entity value: primitives and temporal/diagnostic values.
Per the spec's data model these are the only values that can occur as
node and relationship properties. -/
inductive PropVal where
  | null
  | bool (b : Bool)
  | int (i : Int)
  | str (s : String)
  | list (xs : List PropVal)
  | map (entries : List (String × PropVal))
  | date (days : Int)
  | localTime (nanosOfDay : Int)
  | time (nanosOfDay : Int) (offsetSeconds : Int)
  | localDateTime (seconds nanos : Int)
  | dateTime (dt : HDateTime)
  | duration (months days seconds nanos : Int)
  | invalid (message cause : String)
deriving Repr

/-- Hydrated node as in `dbtype.Node`. -/
structure Node where
  Id : Int
  ElementId : String
  Labels : List String
  Props : List (String × PropVal)
deriving Repr

/-- Hydrated relationship as in `dbtype.Relationship`. -/
structure Relationship where
  Id : Int
  ElementId : String
  StartId : Int
  StartElementId : String
  EndId : Int
  EndElementId : String
  «Type» : String
  Props : List (String × PropVal)
deriving Repr

/-- Relationship carrier used inside paths, as the Go `relNode` struct:
an unbound relationship with no endpoint information. -/
structure RelNode where
  id : Int
  elementId : String
  name : String
  props : List (String × PropVal)
deriving Repr

/-- Hydrated path as in `dbtype.Path`. -/
structure Path where
  Nodes : List Node
  Relationships : List Relationship
deriving Repr

/-- Hydrated record value (an element of a RECORD's value list). -/
inductive HVal where
  | v (p : PropVal)
  | list (xs : List HVal)
  | map (entries : List (String × HVal))
  | node (n : Node)
  | relationship (r : Relationship)
  | unboundRel (r : RelNode)
  | path (p : Path)
deriving Repr

/-- Error text for a struct header whose field count disagrees with the
contract of its tag. -/
def lengthErrMsg (expected was : Nat) : String :=
  "Invalid length of struct, expected " ++ toString expected ++ " but was " ++ toString was

/-- Error text for a struct tag outside the negotiated dispatch table. -/
def unknownTagMsg (tag : Nat) : String :=
  "Received unknown struct tag: " ++ toString tag

/-- Modelled from the spec: the field-count contract of each value struct tag
(§4.4), as a map from tag byte to the struct's name and contracted count.
Tags `I`/`i` are only present when the `utc` patch was acknowledged, tags
`F`/`f` only when it was not; node, relationship and unbound-relationship
contracts grow by the element-id fields on Bolt ≥ 5.  Spatial point tags are
outside the modelled (float-free) fragment. -/
def valueContract (h : Hydrator) : Nat → Option (String × Nat)
  | 78 => some ("node", if 5 ≤ h.boltMajor then 4 else 3)
  | 82 => some ("relationship", if 5 ≤ h.boltMajor then 8 else 5)
  | 114 => some ("relnode", if 5 ≤ h.boltMajor then 4 else 3)
  | 80 => some ("path", 3)
  | 68 => some ("date", 1)
  | 84 => some ("time", 2)
  | 116 => some ("localtime", 1)
  | 100 => some ("localdatetime", 2)
  | 69 => some ("duration", 4)
  | 70 => if h.useUtc then none else some ("datetime", 3)
  | 102 => if h.useUtc then none else some ("datetimezoned", 3)
  | 73 => if h.useUtc then some ("utcdatetime", 3) else none
  | 105 => if h.useUtc then some ("utcdatetimezoned", 3) else none
  | _ => none

/-- Modelled from the spec: the IANA time-zone database lookup performed by
`time.LoadLocation`, which is not part of this repository.  Restricted to the
zones the spec names, each with its UTC offset in seconds at the instants the
spec exercises (`Australia/Eucla` is UTC+8h45); every other name is unknown. -/
def zoneOffset : String → Option Int
  | "Australia/Eucla" => some 31500
  | "UTC" => some 0
  | _ => none

/-- Modelled from the spec: hydration of the temporal struct tags (§4.4).
Legacy zoned tags `F`/`f` carry local wall-clock seconds and are normalized
into true UTC instants; UTC tags `I`/`i` already carry instants.  An unknown
zone name yields an `InvalidValue` carrying a diagnostic message and a cause
naming the zone.  The field count has already been checked against the tag's
contract when this runs. -/
def hydrateTemporal : Nat → List PVal → Except ProtocolError PropVal
  | 68, [.int days] => .ok (.date days)
  | 84, [.int nanos, .int offset] => .ok (.time nanos offset)
  | 116, [.int nanos] => .ok (.localTime nanos)
  | 100, [.int secs, .int nanos] => .ok (.localDateTime secs nanos)
  | 69, [.int months, .int days, .int secs, .int nanos] => .ok (.duration months days secs nanos)
  | 70, [.int secs, .int nanos, .int offset] =>
      .ok (.dateTime ⟨secs - offset, nanos, offset, "Offset"⟩)
  | 102, [.int secs, .int nanos, .str name] =>
      match zoneOffset name with
      | some off => .ok (.dateTime ⟨secs - off, nanos, off, name⟩)
      | none => .ok (.invalid "dateTimeNamedZone" ("unknown time zone " ++ name))
  | 73, [.int secs, .int nanos, .int offset] =>
      .ok (.dateTime ⟨secs, nanos, offset, "Offset"⟩)
  | 105, [.int secs, .int nanos, .str name] =>
      match zoneOffset name with
      | some off => .ok (.dateTime ⟨secs, nanos, off, name⟩)
      | none => .ok (.invalid "utcDateTimeNamedZone" ("unknown time zone " ++ name))
  | _, _ => .error ⟨"", "hydration type mismatch"⟩

/-- Placeholder node used for out-of-range table accesses (Go would panic). -/
def defaultNode : Node := ⟨0, "", [], []⟩

/-- Placeholder relationship carrier for out-of-range table accesses. -/
def defaultRelNode : RelNode := ⟨0, "", "", []⟩

/-- Placeholder relationship used for out-of-range list accesses. -/
def defaultRel : Relationship := ⟨0, "", 0, "", 0, "", "", []⟩

/-- Modelled from the spec: one hop of a path (§4.4 Path).  A positive
(1-based) relationship index traverses forward from the current node to the
target node; a negative index traverses the relationship reversed.  The
reconstructed relationship's start and end ids are set from the nodes
traversed, not the unbound carrier. -/
def pathHop (relNodes : List RelNode) (n1 n2 : Node) (relni : Int) : Relationship :=
  if relni < 0 then
    let rn := relNodes.getD ((-relni).toNat - 1) defaultRelNode
    ⟨rn.id, rn.elementId, n2.Id, n2.ElementId, n1.Id, n1.ElementId, rn.name, rn.props⟩
  else
    let rn := relNodes.getD (relni.toNat - 1) defaultRelNode
    ⟨rn.id, rn.elementId, n1.Id, n1.ElementId, n2.Id, n2.ElementId, rn.name, rn.props⟩

/-- Modelled from the spec: consume the index list in pairs
`(relIdx, nodeIdx)` (§4.4 Path), producing the nodes visited after the start
node and the reconstructed relationships, one of each per hop.  The node
index addresses the node table 0-based; a dangling odd index describes no
hop. -/
def buildHops (nodes : List Node) (relNodes : List RelNode) : Node → List Int → List Node × List Relationship
  | _, [] => ([], [])
  | _, [_] => ([], [])
  | n1, relni :: n2i :: rest =>
    let n2 := nodes.getD n2i.toNat defaultNode
    let tail := buildHops nodes relNodes n2 rest
    (n2 :: tail.1, pathHop relNodes n1 n2 relni :: tail.2)

/-- Modelled from the spec: `buildPath` reconstructs a `Path` from the node
table, the unbound-relationship table and the signed index list of a `P`
struct (§3, §4.4).  The path's node sequence is the traversal order: the
first node of the table followed by the target node of each hop. -/
def buildPath (nodes : List Node) (relNodes : List RelNode) (indexes : List Int) : Path :=
  match nodes with
  | [] => ⟨[], []⟩
  | n0 :: _ =>
    let hops := buildHops nodes relNodes n0 indexes
    ⟨n0 :: hops.1, hops.2⟩

/-- Uniform protocol error for a well-formed struct whose fields do not have
the shapes its tag requires. -/
def typeMismatch : ProtocolError := ⟨"", "hydration type mismatch"⟩

mutual

/-- Modelled from the spec: hydration of a property value (a PackStream value
that is not an entity struct).  Struct tags are first checked against the
negotiated contract table; a tag outside it raises the unknown-tag protocol
error and a field count that disagrees with the contract raises the invalid
length protocol error.  Entity structs cannot occur as property values in the
modelled fragment. -/
def hydratePropVal (h : Hydrator) : PVal → Except ProtocolError PropVal
  | .null => .ok .null
  | .bool b => .ok (.bool b)
  | .int i => .ok (.int i)
  | .str s => .ok (.str s)
  | .list xs => do pure (.list (← hydratePropList h xs))
  | .map es => do pure (.map (← hydratePropEntries h es))
  | .struct tag fields =>
    match valueContract h tag with
    | none => .error ⟨"", unknownTagMsg tag⟩
    | some c =>
      if fields.length = c.2 then hydrateTemporal tag fields
      else .error ⟨c.1, lengthErrMsg c.2 fields.length⟩

/-- Hydrate each element of a list of property values. -/
def hydratePropList (h : Hydrator) : List PVal → Except ProtocolError (List PropVal)
  | [] => .ok []
  | x :: xs => do pure ((← hydratePropVal h x) :: (← hydratePropList h xs))

/-- Hydrate each value of a string-keyed map of property values. -/
def hydratePropEntries (h : Hydrator) : List (String × PVal) → Except ProtocolError (List (String × PropVal))
  | [] => .ok []
  | (k, x) :: xs => do pure ((k, ← hydratePropVal h x) :: (← hydratePropEntries h xs))

end

/-- Extract a list of strings (used for node labels and column names). -/
def asStrings : List PVal → Option (List String)
  | [] => some []
  | .str s :: xs => do pure (s :: (← asStrings xs))
  | _ :: _ => none

/-- Extract a list of signed integers (used for path indexes). -/
def asInts : List PVal → Option (List Int)
  | [] => some []
  | .int i :: xs => do pure (i :: (← asInts xs))
  | _ :: _ => none

/-- Modelled from the spec: node hydration (§4.4 Node).  With three fields
(Bolt ≤ 4) the element id is synthesized as the decimal rendering of the
numeric id; with four fields (Bolt ≥ 5) the fourth field is the element id,
taken unchanged.  The field count was already checked against the contract. -/
def hydrateNodeFields (h : Hydrator) : List PVal → Except ProtocolError Node
  | [.int id, .list ls, .map props] => do
    match asStrings ls with
    | some labels => pure (Node.mk id (toString id) labels (← hydratePropEntries h props))
    | none => .error typeMismatch
  | [.int id, .list ls, .map props, .str eid] => do
    match asStrings ls with
    | some labels => pure (Node.mk id eid labels (← hydratePropEntries h props))
    | none => .error typeMismatch
  | _ => .error typeMismatch

/-- Modelled from the spec: relationship hydration (§4.4 Relationship).
Five fields on Bolt ≤ 4, with element ids synthesized from the numeric ids;
eight fields on Bolt ≥ 5, adding element-id, start-element-id and
end-element-id strings. -/
def hydrateRelFields (h : Hydrator) : List PVal → Except ProtocolError Relationship
  | [.int id, .int sid, .int eid, .str typ, .map props] => do
    pure (Relationship.mk id (toString id) sid (toString sid) eid (toString eid) typ
      (← hydratePropEntries h props))
  | [.int id, .int sid, .int eid, .str typ, .map props, .str elid, .str selid, .str eelid] => do
    pure (Relationship.mk id elid sid selid eid eelid typ (← hydratePropEntries h props))
  | _ => .error typeMismatch

/-- Modelled from the spec: unbound-relationship hydration (§4.4).  Three
fields (id, type, props) on Bolt ≤ 4 with the element id synthesized from the
numeric id; a fourth element-id field on Bolt ≥ 5. -/
def hydrateRelNodeFields (h : Hydrator) : List PVal → Except ProtocolError RelNode
  | [.int id, .str name, .map props] => do
    pure (RelNode.mk id (toString id) name (← hydratePropEntries h props))
  | [.int id, .str name, .map props, .str eid] => do
    pure (RelNode.mk id eid name (← hydratePropEntries h props))
  | _ => .error typeMismatch

/-- Hydrate one element of a path's node table, which must be a node struct
satisfying the negotiated contract. -/
def hydratePathNode (h : Hydrator) : PVal → Except ProtocolError Node
  | .struct 78 fields =>
    match valueContract h 78 with
    | some c =>
      if fields.length = c.2 then hydrateNodeFields h fields
      else .error ⟨c.1, lengthErrMsg c.2 fields.length⟩
    | none => .error ⟨"", unknownTagMsg 78⟩
  | _ => .error typeMismatch

/-- Hydrate one element of a path's relationship table, which must be an
unbound-relationship struct satisfying the negotiated contract. -/
def hydratePathRelNode (h : Hydrator) : PVal → Except ProtocolError RelNode
  | .struct 114 fields =>
    match valueContract h 114 with
    | some c =>
      if fields.length = c.2 then hydrateRelNodeFields h fields
      else .error ⟨c.1, lengthErrMsg c.2 fields.length⟩
    | none => .error ⟨"", unknownTagMsg 114⟩
  | _ => .error typeMismatch

/-- Modelled from the spec: path hydration (§4.4 Path).  The three fields are
the node table, the unbound-relationship table and the signed index list; the
path is reconstructed by `buildPath`. -/
def hydratePathFields (h : Hydrator) : List PVal → Except ProtocolError Path
  | [.list ns, .list rs, .list is] => do
    let nodes ← ns.mapM (hydratePathNode h)
    let relNodes ← rs.mapM (hydratePathRelNode h)
    match asInts is with
    | some indexes => pure (buildPath nodes relNodes indexes)
    | none => .error typeMismatch
  | _ => .error typeMismatch

/-- Modelled from the spec: dispatch of a value struct, after its field count
was checked against the contract of its tag.  Entity tags produce entities;
temporal tags produce temporal values. -/
def hydrateStructFields (h : Hydrator) (tag : Nat) (fields : List PVal) : Except ProtocolError HVal :=
  if tag = 78 then (hydrateNodeFields h fields).map HVal.node
  else if tag = 82 then (hydrateRelFields h fields).map HVal.relationship
  else if tag = 114 then (hydrateRelNodeFields h fields).map HVal.unboundRel
  else if tag = 80 then (hydratePathFields h fields).map HVal.path
  else (hydrateTemporal tag fields).map HVal.v

mutual

/-- Modelled from the spec: hydration of one value of a RECORD (§4.4).  A
struct tag outside the negotiated contract table raises the unknown-tag
protocol error; a field count disagreeing with the tag's contract raises the
invalid length protocol error; otherwise the struct is dispatched by tag. -/
def hydrateValue (h : Hydrator) : PVal → Except ProtocolError HVal
  | .null => .ok (.v .null)
  | .bool b => .ok (.v (.bool b))
  | .int i => .ok (.v (.int i))
  | .str s => .ok (.v (.str s))
  | .list xs => do pure (.list (← hydrateValueList h xs))
  | .map es => do pure (.map (← hydrateValueEntries h es))
  | .struct tag fields =>
    match valueContract h tag with
    | none => .error ⟨"", unknownTagMsg tag⟩
    | some c =>
      if fields.length = c.2 then hydrateStructFields h tag fields
      else .error ⟨c.1, lengthErrMsg c.2 fields.length⟩

/-- Hydrate each element of a list value. -/
def hydrateValueList (h : Hydrator) : List PVal → Except ProtocolError (List HVal)
  | [] => .ok []
  | x :: xs => do pure ((← hydrateValue h x) :: (← hydrateValueList h xs))

/-- Hydrate each value of a string-keyed map value. -/
def hydrateValueEntries (h : Hydrator) : List (String × PVal) → Except ProtocolError (List (String × HVal))
  | [] => .ok []
  | (k, x) :: xs => do pure ((k, ← hydrateValue h x) :: (← hydrateValueEntries h xs))

end

/-- Parsed SUCCESS metadata, as the Go `success` struct flattened from the
metadata map.  Modelled from the spec (§3 Success envelope, §4.4 Success
metadata parsing), restricted to the scalar fields and the column list; the
plan, profile, notification and routing-table sub-objects are outside the
modelled fragment.  `num` records the key count of the received map and the
query-timing fields default to the sentinel −1. -/
structure Success where
  tfirst : Int := -1
  tlast : Int := -1
  qid : Int := -1
  num : Nat := 0
  fields : List String := []
  bookmark : String := ""
  qtype : String := ""
  db : String := ""
  hasMore : Bool := false
  connectionId : String := ""
  server : String := ""
deriving Repr, DecidableEq

/-- Modelled from the spec: the metadata keys the SUCCESS parser recognizes
(within the modelled fragment). -/
def recognizedSuccessKey (k : String) : Bool :=
  k = "fields" || k = "t_first" || k = "t_last" || k = "qid" || k = "bookmark" ||
  k = "has_more" || k = "db" || k = "type" || k = "connection_id" || k = "server"

/-- Modelled from the spec: fold one metadata entry into the parsed SUCCESS.
A key the parser does not recognize, or whose value does not have the
expected shape, leaves the parsed fields unchanged. -/
def applySuccessKey (s : Success) (k : String) (v : PVal) : Success :=
  if k = "fields" then
    match v with
    | .list xs =>
      match asStrings xs with
      | some cols => {s with fields := cols}
      | none => s
    | _ => s
  else if k = "t_first" then
    match v with
    | .int i => {s with tfirst := i}
    | _ => s
  else if k = "t_last" then
    match v with
    | .int i => {s with tlast := i}
    | _ => s
  else if k = "qid" then
    match v with
    | .int i => {s with qid := i}
    | _ => s
  else if k = "bookmark" then
    match v with
    | .str b => {s with bookmark := b}
    | _ => s
  else if k = "has_more" then
    match v with
    | .bool b => {s with hasMore := b}
    | _ => s
  else if k = "db" then
    match v with
    | .str d => {s with db := d}
    | _ => s
  else if k = "type" then
    match v with
    | .str t => {s with qtype := t}
    | _ => s
  else if k = "connection_id" then
    match v with
    | .str c => {s with connectionId := c}
    | _ => s
  else if k = "server" then
    match v with
    | .str sv => {s with server := sv}
    | _ => s
  else s

/-- Modelled from the spec: SUCCESS metadata parsing is a single pass over
the map with the key count recorded as `num`; the timing sentinels `qid`,
`tfirst` and `tlast` default to −1. -/
def parseSuccess (entries : List (String × PVal)) : Success :=
  {entries.foldl (fun s e => applySuccessKey s e.1 e.2) {} with num := entries.length}

/-- Look up a string value in a metadata map, defaulting to the empty
string (used for the FAILURE code and message). -/
def lookupString (entries : List (String × PVal)) (k : String) : String :=
  match entries.findSome? (fun e => if e.1 = k then some e.2 else none) with
  | some (PVal.str s) => s
  | _ => ""

/-- Hydrated protocol message, the result of top-level hydration: one of the
four response kinds of the Bolt protocol. -/
inductive HMsg where
  | success (s : Success)
  | record (values : List HVal)
  | failure (code message : String)
  | ignored
deriving Repr

/-- Modelled from the spec: the field-count contract of each protocol message
tag (SUCCESS `0x70`, RECORD `0x71`, IGNORED `0x7E`, FAILURE `0x7F`). -/
def msgContract : Nat → Option (String × Nat)
  | 112 => some ("success", 1)
  | 113 => some ("record", 1)
  | 126 => some ("ignored", 0)
  | 127 => some ("failure", 1)
  | _ => none

/-- Modelled from the spec: dispatch of a protocol message struct after its
field count was checked against the contract of its tag. -/
def hydrateMsgFields (h : Hydrator) : Nat → List PVal → Except ProtocolError HMsg
  | 112, [.map entries] => .ok (.success (parseSuccess entries))
  | 113, [.list xs] => (hydrateValueList h xs).map HMsg.record
  | 126, [] => .ok .ignored
  | 127, [.map entries] => .ok (.failure (lookupString entries "code") (lookupString entries "message"))
  | _, _ => .error typeMismatch

/-- Modelled from the spec: top-level hydration of one received message
(§4.4).  The received struct's tag selects the message kind; a field count
disagreeing with the tag's contract raises the invalid length protocol
error, an unknown tag the unknown-tag protocol error. -/
def hydrate (h : Hydrator) : PVal → Except ProtocolError HMsg
  | .struct tag fields =>
    match msgContract tag with
    | none => .error ⟨"", unknownTagMsg tag⟩
    | some c =>
      if fields.length = c.2 then hydrateMsgFields h tag fields
      else .error ⟨c.1, lengthErrMsg c.2 fields.length⟩
  | _ => .error ⟨"", "expected struct message"⟩

/-- Negotiated protocol version, as `db.ProtocolVersion` (major and minor). -/
structure ProtocolVersion where
  Major : Int
  Minor : Int
deriving Repr, DecidableEq

/-- Re-authentication token, restricted to the field `checkReAuth` reads. -/
structure ReAuthToken where
  FromSession : Bool
deriving Repr, DecidableEq

/-- The connection capability consumed by `checkReAuth`: its negotiated
version and its server name. -/
structure Connection where
  version : ProtocolVersion
  serverName : String
deriving Repr, DecidableEq

/-- Feature-not-supported error, as `idb.FeatureNotSupportedError`. -/
structure FeatureNotSupportedError where
  Server : String
  Feature : String
  Reason : String
deriving Repr, DecidableEq

/-- Embeds `checkReAuth` from the bolt package: a token not from a session
passes; a session-auth token on a version below 5.1 (major < 5, or major 5
with minor 0) is rejected with a feature-not-supported error, and passes
otherwise.  `none` models the Go `nil` error return. -/
def checkReAuth (auth : ReAuthToken) (connection : Connection) : Option FeatureNotSupportedError :=
  if !auth.FromSession then none
  else if connection.version.Major < 5 ∨ (connection.version.Major = 5 ∧ connection.version.Minor = 0) then
    some ⟨connection.serverName, "session auth", "requires least server v5.5"⟩
  else none

/-- A logging sink; `noOp` is the value `NoOpLogger()` returns and `custom`
stands for any user-supplied sink. -/
inductive Logging where
  | noOp
  | custom (id : Nat)
deriving Repr, DecidableEq

/-- Driver configuration, as the Go `Config` struct; `log` is an interface
value, so `none` models a nil sink and the retry duration is in
nanoseconds (Go `time.Duration`). -/
structure Config where
  encrypted : Bool
  log : Option Logging
  maxTransactionRetryDuration : Int
deriving Repr, DecidableEq

/-- Embeds `defaultConfig`: encryption on, the no-op logger, and a maximum
transaction retry duration of 30 seconds. -/
def defaultConfig : Config :=
  ⟨true, some .noOp, 30 * 1000000000⟩

/-- One builder-style call on a `ConfigBuilder`; `withLogging none` models a
call `WithLogging(nil)`. -/
inductive BuilderOp where
  | withEncryption
  | withoutEncryption
  | withMaxTransactionRetryTime (duration : Int)
  | withLogging (logging : Option Logging)
deriving Repr, DecidableEq

/-- Embeds the `ConfigBuilder` methods, each updating the built config;
`WithLogging` substitutes the no-op logger for a nil argument. -/
def applyOp (c : Config) : BuilderOp → Config
  | .withEncryption => {c with encrypted := true}
  | .withoutEncryption => {c with encrypted := false}
  | .withMaxTransactionRetryTime d => {c with maxTransactionRetryDuration := d}
  | .withLogging l => {c with log := some (l.getD .noOp)}

/-- Embeds `NewConfigBuilder` followed by a sequence of builder calls and
`Build`: the default config folded through the calls. -/
def buildConfig (ops : List BuilderOp) : Config :=
  ops.foldl applyOp defaultConfig

/-- Auth token, as the Go `AuthToken`: a map of scheme-tagged credentials
(string-valued in the fragment `BasicAuth` produces). -/
structure AuthToken where
  Tokens : List (String × String)
deriving Repr, DecidableEq

/-- Modelled from the spec: `BasicAuth` (S2, §6 Authentication schemes),
whose implementation is not part of this repository.  It produces the keys
scheme, principal and credentials, adding a realm key exactly when the realm
string is non-empty. -/
def BasicAuth (username password realm : String) : AuthToken :=
  ⟨[("scheme", "basic"), ("principal", username), ("credentials", password)] ++
    (if realm = "" then [] else [("realm", realm)])⟩

/-! Theorems about the embedded operations, one per checked claim. -/

/-- Claim C5: `checkReAuth` returns nil for every token whose FromSession
flag is false; when FromSession is true it returns a FeatureNotSupportedError
for the "session auth" feature exactly when the negotiated version is below
5.1 (major < 5, or major = 5 and minor = 0), and nil for every version 5.1
or above. -/
theorem checkReAuth_session_auth_gate (auth : ReAuthToken) (c : Connection) :
    (auth.FromSession = false → checkReAuth auth c = none) ∧
    (auth.FromSession = true →
      ((c.version.Major < 5 ∨ (c.version.Major = 5 ∧ c.version.Minor = 0)) →
        checkReAuth auth c
          = some ⟨c.serverName, "session auth", "requires least server v5.5"⟩) ∧
      ((5 ≤ c.version.Major ∧ (c.version.Major = 5 → c.version.Minor ≠ 0)) →
        checkReAuth auth c = none)) := by
  refine ⟨fun hfs => by simp [checkReAuth, hfs], fun hfs => ⟨fun hv => ?_, fun hv => ?_⟩⟩
  · simp [checkReAuth, hfs, hv]
  · have hnot : ¬(c.version.Major < 5 ∨ (c.version.Major = 5 ∧ c.version.Minor = 0)) := by
      rcases hv with ⟨h5, hm⟩
      rintro (hlt | ⟨he, hz⟩)
      · omega
      · exact hm he hz
    simp [checkReAuth, hfs, hnot]

/-- Closed instances of the session-auth gate: a session token is rejected on
versions 4.3 and 5.0, accepted on 5.1, and a non-session token passes on
4.0. -/
theorem checkReAuth_session_auth_gate_witness :
    checkReAuth ⟨true⟩ ⟨⟨4, 3⟩, "srv"⟩
        = some ⟨"srv", "session auth", "requires least server v5.5"⟩ ∧
    checkReAuth ⟨true⟩ ⟨⟨5, 0⟩, "srv"⟩
        = some ⟨"srv", "session auth", "requires least server v5.5"⟩ ∧
    checkReAuth ⟨true⟩ ⟨⟨5, 1⟩, "srv"⟩ = none ∧
    checkReAuth ⟨false⟩ ⟨⟨4, 0⟩, "srv"⟩ = none :=
  ⟨((checkReAuth_session_auth_gate ⟨true⟩ ⟨⟨4, 3⟩, "srv"⟩).2 rfl).1 (by decide),
   ((checkReAuth_session_auth_gate ⟨true⟩ ⟨⟨5, 0⟩, "srv"⟩).2 rfl).1 (by decide),
   ((checkReAuth_session_auth_gate ⟨true⟩ ⟨⟨5, 1⟩, "srv"⟩).2 rfl).2 (by decide),
   (checkReAuth_session_auth_gate ⟨false⟩ ⟨⟨4, 0⟩, "srv"⟩).1 rfl⟩

/-- Claim C9: BasicAuth("user", "password", "") produces an auth token whose
map has exactly the three keys scheme = basic, principal = user and
credentials = password; with any non-empty realm r it produces exactly four
keys, adding realm = r. -/
theorem basicAuth_token_keys :
    (BasicAuth "user" "password" "").Tokens
        = [("scheme", "basic"), ("principal", "user"), ("credentials", "password")] ∧
    ∀ u p r : String, r ≠ "" →
      (BasicAuth u p r).Tokens
        = [("scheme", "basic"), ("principal", u), ("credentials", p), ("realm", r)] := by
  refine ⟨rfl, fun u p r hr => ?_⟩
  simp [BasicAuth, hr]

/-- Closed instance of the realm case of BasicAuth. -/
theorem basicAuth_token_keys_witness :
    (BasicAuth "user" "password" "r").Tokens
        = [("scheme", "basic"), ("principal", "user"), ("credentials", "password"), ("realm", "r")] :=
  basicAuth_token_keys.2 "user" "password" "r" (by decide)

/-- Claim C10: every Config produced by NewConfigBuilder followed by any
sequence of builder calls and Build has a non-nil logging sink; the default
config has the no-op logger, encryption enabled and a 30-second maximum
transaction retry duration; and WithLogging called with nil stores the no-op
logger instead of nil. -/
theorem config_always_has_logger :
    (∀ ops : List BuilderOp, (buildConfig ops).log.isSome = true) ∧
    buildConfig [] = ⟨true, some .noOp, 30 * 1000000000⟩ ∧
    (∀ c : Config, applyOp c (.withLogging none) = {c with log := some .noOp}) := by
  refine ⟨fun ops => ?_, rfl, fun c => rfl⟩
  suffices h : ∀ (l : List BuilderOp) (c : Config), c.log.isSome = true →
      (l.foldl applyOp c).log.isSome = true from h ops defaultConfig rfl
  intro l
  induction l with
  | nil => exact fun c hc => hc
  | cons op rest ih =>
    intro c hc
    refine ih (applyOp c op) ?_
    cases op <;> simp [applyOp] <;> exact hc

/-- Claim C1: when the utc patch was not acknowledged (useUtc false),
hydrating a record struct containing a struct with tag I or i yields a
ProtocolError; when the utc patch was acknowledged (useUtc true), a struct
with tag F or f yields a ProtocolError. -/
theorem utc_patch_gate (h : Hydrator) (fields : List PVal) :
    (h.useUtc = false →
      hydrate h (.struct 113 [.list [.struct 73 fields]])
          = .error ⟨"", "Received unknown struct tag: 73"⟩ ∧
      hydrate h (.struct 113 [.list [.struct 105 fields]])
          = .error ⟨"", "Received unknown struct tag: 105"⟩) ∧
    (h.useUtc = true →
      hydrate h (.struct 113 [.list [.struct 70 fields]])
          = .error ⟨"", "Received unknown struct tag: 70"⟩ ∧
      hydrate h (.struct 113 [.list [.struct 102 fields]])
          = .error ⟨"", "Received unknown struct tag: 102"⟩) := by
  obtain ⟨u, b⟩ := h
  constructor <;> intro hu <;> obtain rfl : u = _ := hu <;> exact ⟨rfl, rfl⟩

/-- Closed instances of the utc negotiation gate, at the tags I (without the
patch) and F (with the patch). -/
theorem utc_patch_gate_witness :
    hydrate ⟨false, 0⟩ (.struct 113 [.list [.struct 73 [.int 42, .int 0, .int 3]]])
        = .error ⟨"", "Received unknown struct tag: 73"⟩ ∧
    hydrate ⟨true, 0⟩ (.struct 113 [.list [.struct 70 [.int 42, .int 0, .int 3]]])
        = .error ⟨"", "Received unknown struct tag: 70"⟩ :=
  ⟨((utc_patch_gate ⟨false, 0⟩ [.int 42, .int 0, .int 3]).1 rfl).1,
   ((utc_patch_gate ⟨true, 0⟩ [.int 42, .int 0, .int 3]).2 rfl).1⟩

/-- Claim C3: a received struct whose field count disagrees with the contract
of its tag raises a ProtocolError whose text is "Invalid length of struct,
expected N but was M" with N the contracted count and M the received count
(for protocol message structs and for value structs alike). -/
theorem invalid_struct_length (h : Hydrator) (tag : Nat) (fields : List PVal)
    (name : String) (n : Nat) :
    (msgContract tag = some (name, n) → fields.length ≠ n →
      hydrate h (.struct tag fields) = .error ⟨name, lengthErrMsg n fields.length⟩) ∧
    (valueContract h tag = some (name, n) → fields.length ≠ n →
      hydrateValue h (.struct tag fields) = .error ⟨name, lengthErrMsg n fields.length⟩) := by
  constructor
  · intro hm hl
    simp [hydrate, hm, hl]
  · intro hm hl
    simp [hydrateValue, hm, hl]

/-- Closed instance of the invalid length error: a FAILURE struct with 0
fields yields "Invalid length of struct, expected 1 but was 0". -/
theorem invalid_struct_length_witness :
    hydrate ⟨false, 0⟩ (.struct 127 [])
        = .error ⟨"failure", "Invalid length of struct, expected 1 but was 0"⟩ :=
  (invalid_struct_length ⟨false, 0⟩ 127 [] "failure" 1).1 rfl (by decide)

/-- Claim C7: with the utc patch acknowledged, the struct
I(1655384400, 0, 9000) hydrates to the instant 2022-06-16T15:30:00 with zero
nanoseconds in a fixed zone of offset +2h30m (9000 seconds), and the struct
i(1655384400, 0, "Australia/Eucla") hydrates to an instant whose zone offset
is +8h45m (31500 seconds), local time 2022-06-16T21:45:00. -/
theorem utc_datetime_instants :
    hydrate ⟨true, 0⟩ (.struct 113 [.list [.struct 73 [.int 1655384400, .int 0, .int 9000]]])
        = .ok (.record [.v (.dateTime ⟨1655384400, 0, 9000, "Offset"⟩)]) ∧
    (HDateTime.mk 1655384400 0 9000 "Offset").offsetSeconds = 9000 ∧
    (HDateTime.mk 1655384400 0 9000 "Offset").year = 2022 ∧
    (HDateTime.mk 1655384400 0 9000 "Offset").month = 6 ∧
    (HDateTime.mk 1655384400 0 9000 "Offset").day = 16 ∧
    (HDateTime.mk 1655384400 0 9000 "Offset").hour = 15 ∧
    (HDateTime.mk 1655384400 0 9000 "Offset").minute = 30 ∧
    (HDateTime.mk 1655384400 0 9000 "Offset").second = 0 ∧
    (HDateTime.mk 1655384400 0 9000 "Offset").nanosecond = 0 ∧
    hydrate ⟨true, 0⟩
        (.struct 113 [.list [.struct 105 [.int 1655384400, .int 0, .str "Australia/Eucla"]]])
        = .ok (.record [.v (.dateTime ⟨1655384400, 0, 31500, "Australia/Eucla"⟩)]) ∧
    (HDateTime.mk 1655384400 0 31500 "Australia/Eucla").offsetSeconds = 31500 ∧
    (HDateTime.mk 1655384400 0 31500 "Australia/Eucla").year = 2022 ∧
    (HDateTime.mk 1655384400 0 31500 "Australia/Eucla").month = 6 ∧
    (HDateTime.mk 1655384400 0 31500 "Australia/Eucla").day = 16 ∧
    (HDateTime.mk 1655384400 0 31500 "Australia/Eucla").hour = 21 ∧
    (HDateTime.mk 1655384400 0 31500 "Australia/Eucla").minute = 45 ∧
    (HDateTime.mk 1655384400 0 31500 "Australia/Eucla").second = 0 ∧
    (HDateTime.mk 1655384400 0 31500 "Australia/Eucla").nanosecond = 0 := by
  refine ⟨rfl, ?_⟩
  refine ⟨rfl, by decide, by decide, by decide, by decide, by decide, by decide, by decide, rfl, ?_⟩
  exact ⟨rfl, by decide, by decide, by decide, by decide, by decide, by decide, by decide⟩

/-- Claim C8: a zoned-datetime struct (i with the utc patch, f without)
carrying a zone name unknown to the zone database hydrates successfully to an
InvalidValue with the respective diagnostic message and a cause naming the
zone, rather than raising a protocol error. -/
theorem unknown_zone_invalid_value (h : Hydrator) (name : String) (secs nanos : Int) :
    zoneOffset name = none →
    (h.useUtc = true →
      hydrateValue h (.struct 105 [.int secs, .int nanos, .str name])
          = .ok (.v (.invalid "utcDateTimeNamedZone" ("unknown time zone " ++ name)))) ∧
    (h.useUtc = false →
      hydrateValue h (.struct 102 [.int secs, .int nanos, .str name])
          = .ok (.v (.invalid "dateTimeNamedZone" ("unknown time zone " ++ name)))) := by
  intro hz
  constructor <;> intro hu <;>
    simp [hydrateValue, valueContract, hu, hydrateStructFields, hydrateTemporal, hz, Except.map]

/-- Closed instances of the unknown-zone handling, at the zone name the
hydrator test uses. -/
theorem unknown_zone_invalid_value_witness :
    hydrateValue ⟨true, 0⟩ (.struct 105 [.int 42, .int 42, .str "LA/Confidential"])
        = .ok (.v (.invalid "utcDateTimeNamedZone" "unknown time zone LA/Confidential")) ∧
    hydrateValue ⟨false, 0⟩ (.struct 102 [.int 42, .int 42, .str "LA/Confidential"])
        = .ok (.v (.invalid "dateTimeNamedZone" "unknown time zone LA/Confidential")) :=
  ⟨(unknown_zone_invalid_value ⟨true, 0⟩ "LA/Confidential" 42 42 rfl).1 rfl,
   (unknown_zone_invalid_value ⟨false, 0⟩ "LA/Confidential" 42 42 rfl).2 rfl⟩

/-- A list of string values extracts to the underlying strings. -/
theorem asStrings_map_str (labels : List String) :
    asStrings (labels.map PVal.str) = some labels := by
  induction labels with
  | nil => rfl
  | cons l ls ih => simp [asStrings, ih]

/-- Claim C6: under Bolt ≤ 4 the node struct has 3 fields and the hydrator
synthesizes ElementId as the decimal rendering of the numeric id; under
Bolt ≥ 5 the node struct has a 4th element-id field which becomes ElementId
unchanged. -/
theorem node_element_id (h : Hydrator) (id : Int) (labels : List String)
    (props : List (String × PVal)) (ps : List (String × PropVal)) (eid : String) :
    hydratePropEntries h props = .ok ps →
    (h.boltMajor < 5 →
      valueContract h 78 = some ("node", 3) ∧
      hydrateValue h (.struct 78 [.int id, .list (labels.map PVal.str), .map props])
          = .ok (.node ⟨id, toString id, labels, ps⟩)) ∧
    (5 ≤ h.boltMajor →
      valueContract h 78 = some ("node", 4) ∧
      hydrateValue h
          (.struct 78 [.int id, .list (labels.map PVal.str), .map props, .str eid])
          = .ok (.node ⟨id, eid, labels, ps⟩)) := by
  intro hp
  constructor
  · intro hb
    have hb5 : ¬5 ≤ h.boltMajor := by omega
    constructor
    · simp [valueContract, hb5]
    · simp [hydrateValue, valueContract, hb5, hydrateStructFields, hydrateNodeFields,
        asStrings_map_str, hp, Except.map]
  · intro hb
    constructor
    · simp [valueContract, hb]
    · simp [hydrateValue, valueContract, hb, hydrateStructFields, hydrateNodeFields,
        asStrings_map_str, hp, Except.map]

/-- Closed instances of node hydration: a 3-field node on Bolt 4 with the
element id synthesized from id 19000, and a 4-field node on Bolt 5 keeping
its element-id string. -/
theorem node_element_id_witness :
    hydrateValue ⟨false, 4⟩
        (.struct 78 [.int 19000, .list [.str "lbl1"], .map [("key1", .int 7)]])
        = .ok (.node ⟨19000, "19000", ["lbl1"], [("key1", .int 7)]⟩) ∧
    hydrateValue ⟨true, 5⟩
        (.struct 78 [.int 19000, .list [.str "lbl1"], .map [("key1", .int 7)], .str "19091"])
        = .ok (.node ⟨19000, "19091", ["lbl1"], [("key1", .int 7)]⟩) :=
  ⟨((node_element_id ⟨false, 4⟩ 19000 ["lbl1"] [("key1", .int 7)] [("key1", .int 7)] "x"
      rfl).1 (by decide)).2,
   ((node_element_id ⟨true, 5⟩ 19000 ["lbl1"] [("key1", .int 7)] [("key1", .int 7)] "19091"
      rfl).2 (by decide)).2⟩

/-- An entry whose key the SUCCESS parser does not recognize leaves the
parsed struct unchanged. -/
theorem applySuccessKey_unrecognized (s : Success) (k : String) (v : PVal)
    (hk : recognizedSuccessKey k = false) : applySuccessKey s k v = s := by
  have h1 : ¬k = "fields" := fun h => by subst h; simp [recognizedSuccessKey] at hk
  have h2 : ¬k = "t_first" := fun h => by subst h; simp [recognizedSuccessKey] at hk
  have h3 : ¬k = "t_last" := fun h => by subst h; simp [recognizedSuccessKey] at hk
  have h4 : ¬k = "qid" := fun h => by subst h; simp [recognizedSuccessKey] at hk
  have h5 : ¬k = "bookmark" := fun h => by subst h; simp [recognizedSuccessKey] at hk
  have h6 : ¬k = "has_more" := fun h => by subst h; simp [recognizedSuccessKey] at hk
  have h7 : ¬k = "db" := fun h => by subst h; simp [recognizedSuccessKey] at hk
  have h8 : ¬k = "type" := fun h => by subst h; simp [recognizedSuccessKey] at hk
  have h9 : ¬k = "connection_id" := fun h => by subst h; simp [recognizedSuccessKey] at hk
  have h10 : ¬k = "server" := fun h => by subst h; simp [recognizedSuccessKey] at hk
  unfold applySuccessKey
  rw [if_neg h1, if_neg h2, if_neg h3, if_neg h4, if_neg h5, if_neg h6, if_neg h7,
    if_neg h8, if_neg h9, if_neg h10]

/-- Every key is either unrecognized or one of the ten parsed keys. -/
theorem successKey_cases (k : String) :
    recognizedSuccessKey k = false ∨ k = "fields" ∨ k = "t_first" ∨ k = "t_last" ∨
    k = "qid" ∨ k = "bookmark" ∨ k = "has_more" ∨ k = "db" ∨ k = "type" ∨
    k = "connection_id" ∨ k = "server" := by
  by_cases h : recognizedSuccessKey k = true
  · simp only [recognizedSuccessKey, Bool.or_eq_true, decide_eq_true_eq] at h
    tauto
  · left
    simpa using h

/-- Folding one entry whose key is not `qid` preserves the parsed qid. -/
theorem applySuccessKey_qid (s : Success) (k : String) (v : PVal) (hk : k ≠ "qid") :
    (applySuccessKey s k v).qid = s.qid := by
  rcases successKey_cases k with hr | rfl | rfl | rfl | rfl | rfl | rfl | rfl | rfl | rfl | rfl
  · rw [applySuccessKey_unrecognized s k v hr]
  · cases v <;> try rfl
    rename_i xs
    show (match asStrings xs with
      | some cols => {s with fields := cols}
      | none => s).qid = s.qid
    cases asStrings xs <;> rfl
  · cases v <;> rfl
  · cases v <;> rfl
  · exact absurd rfl hk
  · cases v <;> rfl
  · cases v <;> rfl
  · cases v <;> rfl
  · cases v <;> rfl
  · cases v <;> rfl
  · cases v <;> rfl

/-- Folding one entry whose key is not `t_first` preserves the parsed
tfirst. -/
theorem applySuccessKey_tfirst (s : Success) (k : String) (v : PVal) (hk : k ≠ "t_first") :
    (applySuccessKey s k v).tfirst = s.tfirst := by
  rcases successKey_cases k with hr | rfl | rfl | rfl | rfl | rfl | rfl | rfl | rfl | rfl | rfl
  · rw [applySuccessKey_unrecognized s k v hr]
  · cases v <;> try rfl
    rename_i xs
    show (match asStrings xs with
      | some cols => {s with fields := cols}
      | none => s).tfirst = s.tfirst
    cases asStrings xs <;> rfl
  · exact absurd rfl hk
  · cases v <;> rfl
  · cases v <;> rfl
  · cases v <;> rfl
  · cases v <;> rfl
  · cases v <;> rfl
  · cases v <;> rfl
  · cases v <;> rfl
  · cases v <;> rfl

/-- Folding one entry whose key is not `t_last` preserves the parsed
tlast. -/
theorem applySuccessKey_tlast (s : Success) (k : String) (v : PVal) (hk : k ≠ "t_last") :
    (applySuccessKey s k v).tlast = s.tlast := by
  rcases successKey_cases k with hr | rfl | rfl | rfl | rfl | rfl | rfl | rfl | rfl | rfl | rfl
  · rw [applySuccessKey_unrecognized s k v hr]
  · cases v <;> try rfl
    rename_i xs
    show (match asStrings xs with
      | some cols => {s with fields := cols}
      | none => s).tlast = s.tlast
    cases asStrings xs <;> rfl
  · cases v <;> rfl
  · exact absurd rfl hk
  · cases v <;> rfl
  · cases v <;> rfl
  · cases v <;> rfl
  · cases v <;> rfl
  · cases v <;> rfl
  · cases v <;> rfl
  · cases v <;> rfl

/-- Entries with unrecognized keys can be dropped from the fold. -/
theorem foldSuccess_filter (entries : List (String × PVal)) (s : Success) :
    entries.foldl (fun t e => applySuccessKey t e.1 e.2) s
      = (entries.filter fun e => recognizedSuccessKey e.1).foldl
          (fun t e => applySuccessKey t e.1 e.2) s := by
  induction entries generalizing s with
  | nil => rfl
  | cons e rest ih =>
    by_cases hk : recognizedSuccessKey e.1
    · simp [List.foldl_cons, List.filter_cons, hk, ih]
    · have hk0 : recognizedSuccessKey e.1 = false := by simpa using hk
      simp [List.foldl_cons, List.filter_cons, hk0,
        applySuccessKey_unrecognized s e.1 e.2 hk0, ih]

/-- Folding entries none of which carries the key `qid` preserves the parsed
qid. -/
theorem foldSuccess_qid (entries : List (String × PVal)) (s : Success)
    (hq : ∀ e ∈ entries, e.1 ≠ "qid") :
    (entries.foldl (fun t e => applySuccessKey t e.1 e.2) s).qid = s.qid := by
  induction entries generalizing s with
  | nil => rfl
  | cons e rest ih =>
    rw [List.foldl_cons, ih _ (fun x hx => hq x (List.mem_cons_of_mem e hx)),
      applySuccessKey_qid s e.1 e.2 (hq e (List.mem_cons_self e rest))]

/-- Folding entries none of which carries the key `t_first` preserves the
parsed tfirst. -/
theorem foldSuccess_tfirst (entries : List (String × PVal)) (s : Success)
    (hq : ∀ e ∈ entries, e.1 ≠ "t_first") :
    (entries.foldl (fun t e => applySuccessKey t e.1 e.2) s).tfirst = s.tfirst := by
  induction entries generalizing s with
  | nil => rfl
  | cons e rest ih =>
    rw [List.foldl_cons, ih _ (fun x hx => hq x (List.mem_cons_of_mem e hx)),
      applySuccessKey_tfirst s e.1 e.2 (hq e (List.mem_cons_self e rest))]

/-- Folding entries none of which carries the key `t_last` preserves the
parsed tlast. -/
theorem foldSuccess_tlast (entries : List (String × PVal)) (s : Success)
    (hq : ∀ e ∈ entries, e.1 ≠ "t_last") :
    (entries.foldl (fun t e => applySuccessKey t e.1 e.2) s).tlast = s.tlast := by
  induction entries generalizing s with
  | nil => rfl
  | cons e rest ih =>
    rw [List.foldl_cons, ih _ (fun x hx => hq x (List.mem_cons_of_mem e hx)),
      applySuccessKey_tlast s e.1 e.2 (hq e (List.mem_cons_self e rest))]

/-- Claim C4: SUCCESS metadata parsing is tolerant and defaulted — the
recorded key count `num` is the length of the map, entries with keys the
parser does not recognize leave every parsed field unchanged (only `num`
reflects them), and each of qid, tfirst, tlast parses to the sentinel −1
whenever its key is absent from the map. -/
theorem success_metadata_tolerant (entries : List (String × PVal)) :
    (parseSuccess entries).num = entries.length ∧
    parseSuccess entries
      = {parseSuccess (entries.filter fun e => recognizedSuccessKey e.1) with
          num := entries.length} ∧
    ((∀ e ∈ entries, e.1 ≠ "qid") → (parseSuccess entries).qid = -1) ∧
    ((∀ e ∈ entries, e.1 ≠ "t_first") → (parseSuccess entries).tfirst = -1) ∧
    ((∀ e ∈ entries, e.1 ≠ "t_last") → (parseSuccess entries).tlast = -1) := by
  refine ⟨rfl, ?_, fun hq => ?_, fun hq => ?_, fun hq => ?_⟩
  · unfold parseSuccess
    rw [foldSuccess_filter]
  · exact foldSuccess_qid entries {} hq
  · exact foldSuccess_tfirst entries {} hq
  · exact foldSuccess_tlast entries {} hq

/-- Closed instance of SUCCESS tolerance: a map with one unknown key parses
to the all-default envelope with the key counted, and the timing sentinels
stay −1. -/
theorem success_metadata_tolerant_witness :
    parseSuccess [("details", PVal.int 1)]
        = {parseSuccess [] with num := 1} ∧
    (parseSuccess [("details", PVal.int 1)]).qid = -1 ∧
    (parseSuccess [("details", PVal.int 1)]).tfirst = -1 ∧
    (parseSuccess [("details", PVal.int 1)]).tlast = -1 :=
  ⟨(success_metadata_tolerant [("details", PVal.int 1)]).2.1,
   (success_metadata_tolerant [("details", PVal.int 1)]).2.2.1 (by decide),
   (success_metadata_tolerant [("details", PVal.int 1)]).2.2.2.1 (by decide),
   (success_metadata_tolerant [("details", PVal.int 1)]).2.2.2.2 (by decide)⟩

/-- Each hop of `buildHops` produces one visited node and one relationship,
and the i-th relationship's endpoint ids form the unordered pair of the i-th
and (i+1)-th ids of the traversed node sequence. -/
theorem buildHops_spec (nodes : List Node) (relNodes : List RelNode) :
    ∀ (k : Nat) (idx : List Int) (n1 : Node), idx.length = 2 * k →
      (buildHops nodes relNodes n1 idx).1.length = k ∧
      (buildHops nodes relNodes n1 idx).2.length = k ∧
      ∀ i : Nat, i < k →
        ({((buildHops nodes relNodes n1 idx).2.getD i defaultRel).StartId,
          ((buildHops nodes relNodes n1 idx).2.getD i defaultRel).EndId} : Finset Int)
          = {((n1 :: (buildHops nodes relNodes n1 idx).1).getD i defaultNode).Id,
             ((n1 :: (buildHops nodes relNodes n1 idx).1).getD (i + 1) defaultNode).Id} := by
  intro k
  induction k with
  | zero =>
    intro idx n1 hlen
    have : idx = [] := List.eq_nil_of_length_eq_zero (by omega)
    subst this
    exact ⟨rfl, rfl, fun i hi => absurd hi (by omega)⟩
  | succ k ih =>
    intro idx n1 hlen
    match idx with
    | relni :: n2i :: rest =>
      have hrest : rest.length = 2 * k := by
        simpa [Nat.mul_succ] using hlen
      obtain ⟨ihn, ihr, ihp⟩ := ih rest (nodes.getD n2i.toNat defaultNode) hrest
      refine ⟨by simpa [buildHops] using ihn, by simpa [buildHops] using ihr, ?_⟩
      intro i hi
      cases i with
      | zero =>
        show ({(pathHop relNodes n1 (nodes.getD n2i.toNat defaultNode) relni).StartId,
          (pathHop relNodes n1 (nodes.getD n2i.toNat defaultNode) relni).EndId} : Finset Int)
          = {n1.Id, (nodes.getD n2i.toNat defaultNode).Id}
        unfold pathHop
        split_ifs <;> simp [Finset.pair_comm]
      | succ j =>
        have hj : j < k := by omega
        have := ihp j hj
        simpa [buildHops] using this
    | [] => simp at hlen
    | [x] => simp [Nat.mul_succ] at hlen

/-- Claim C2: a hydrated path built from a node table, a relationship table
and an index list of 2k signed integers has k+1 nodes and k relationships,
and each hop's relationship endpoint ids form the unordered pair of the ids
of the hop's two nodes; in particular, for nodes with ids 1 and 2 and one
unbound relationship (id 3, type x), indexes [1,1] give the sole
relationship StartId 1, EndId 2, Type x, while indexes [-1,1] give
StartId 2, EndId 1. -/
theorem buildPath_consistency :
    (∀ (nodes : List Node) (relNodes : List RelNode) (indexes : List Int) (k : Nat),
      nodes ≠ [] → indexes.length = 2 * k →
      (buildPath nodes relNodes indexes).Nodes.length = k + 1 ∧
      (buildPath nodes relNodes indexes).Relationships.length = k ∧
      ∀ i : Nat, i < k →
        ({((buildPath nodes relNodes indexes).Relationships.getD i defaultRel).StartId,
          ((buildPath nodes relNodes indexes).Relationships.getD i defaultRel).EndId} : Finset Int)
          = {((buildPath nodes relNodes indexes).Nodes.getD i defaultNode).Id,
             ((buildPath nodes relNodes indexes).Nodes.getD (i + 1) defaultNode).Id}) ∧
    buildPath [⟨1, "", [], []⟩, ⟨2, "", [], []⟩] [⟨3, "", "x", []⟩] [1, 1]
      = ⟨[⟨1, "", [], []⟩, ⟨2, "", [], []⟩], [⟨3, "", 1, "", 2, "", "x", []⟩]⟩ ∧
    buildPath [⟨1, "", [], []⟩, ⟨2, "", [], []⟩] [⟨3, "", "x", []⟩] [-1, 1]
      = ⟨[⟨1, "", [], []⟩, ⟨2, "", [], []⟩], [⟨3, "", 2, "", 1, "", "x", []⟩]⟩ := by
  refine ⟨?_, rfl, rfl⟩
  intro nodes relNodes indexes k hne hlen
  match nodes with
  | n0 :: rest =>
    obtain ⟨hn, hr, hp⟩ := buildHops_spec (n0 :: rest) relNodes k indexes n0 hlen
    refine ⟨by simpa [buildPath] using hn, by simpa [buildPath] using hr, ?_⟩
    intro i hi
    have := hp i hi
    simpa [buildPath] using this

/-- Closed instance of path consistency at the two-node, one-hop path. -/
theorem buildPath_consistency_witness :
    (buildPath [⟨1, "", [], []⟩, ⟨2, "", [], []⟩] [⟨3, "", "x", []⟩] [1, 1]).Nodes.length = 2 ∧
    (buildPath [⟨1, "", [], []⟩, ⟨2, "", [], []⟩] [⟨3, "", "x", []⟩] [1, 1]).Relationships.length
        = 1 ∧
    ({((buildPath [⟨1, "", [], []⟩, ⟨2, "", [], []⟩] [⟨3, "", "x", []⟩]
          [1, 1]).Relationships.getD 0 defaultRel).StartId,
      ((buildPath [⟨1, "", [], []⟩, ⟨2, "", [], []⟩] [⟨3, "", "x", []⟩]
          [1, 1]).Relationships.getD 0 defaultRel).EndId} : Finset Int)
      = {((buildPath [⟨1, "", [], []⟩, ⟨2, "", [], []⟩] [⟨3, "", "x", []⟩]
            [1, 1]).Nodes.getD 0 defaultNode).Id,
         ((buildPath [⟨1, "", [], []⟩, ⟨2, "", [], []⟩] [⟨3, "", "x", []⟩]
            [1, 1]).Nodes.getD 1 defaultNode).Id} := by
  obtain ⟨hn, hr, hp⟩ :=
    buildPath_consistency.1 [⟨1, "", [], []⟩, ⟨2, "", [], []⟩] [⟨3, "", "x", []⟩] [1, 1] 1
      (List.cons_ne_nil _ _) (by decide)
  exact ⟨hn, hr, hp 0 (by decide)⟩

end NeoSpec
